import Mathlib

/-!
Shallow embedding of the playlist-management REST backend (src/app.py and
src/db.py): the relational state, the serializers, and one Lean function per
request handler.  Response bodies are modelled as the exact strings
`json.dumps` produces (default separators), so responses are plain data with
decidable equality.  ORM attribute expiry on commit is not modelled:
serializations returned after a delete are taken over the pre-delete row
values.
-/

/-- One row of the `user` table (db.py, class User). -/
structure UserRow where
  id : Nat
  username : String
deriving DecidableEq, Repr

/-- One row of the `playlist` table (db.py, class Playlist).  `image_id` is the
nullable foreign key into the `image` table. -/
structure PlaylistRow where
  id : Nat
  playlist_name : String
  user_id : Nat
  image_id : Option Nat
deriving DecidableEq, Repr

/-- One row of the `song` table (db.py, class Song). -/
structure SongRow where
  id : Nat
  title : String
  artist : String
  bpm : Int
  link : String
deriving DecidableEq, Repr

/-- One row of the `image` table (db.py, class Img). -/
structure ImgRow where
  id : Nat
  link : String
deriving DecidableEq, Repr

/-- One row of the `asset` table (db.py, class Asset); `created_at` is an
abstract timestamp. -/
structure AssetRow where
  id : Nat
  base_url : String
  salt : String
  extension : String
  width : Nat
  height : Nat
  created_at : Nat
deriving DecidableEq, Repr

/-- The persistent state: the five tables, the playlist-song join table, and
the set of object names stored in the remote bucket (so theorems can speak
about remote deletion).  Rows are kept in insertion order (sqlite rowid
order); join-table rows are (playlist_id, song_id) pairs. -/
structure DB where
  users : List UserRow
  playlists : List PlaylistRow
  songs : List SongRow
  images : List ImgRow
  assets : List AssetRow
  assoc : List (Nat × Nat)
  remote : List String
deriving DecidableEq, Repr

/-- The empty database created at startup. -/
def DB.empty : DB := ⟨[], [], [], [], [], [], []⟩

/-- Next autoincrement id: sqlite assigns max(existing ids) + 1, so 1 on an
empty table and reuse of freed ids at the top. -/
def freshId (ids : List Nat) : Nat := ids.foldr max 0 + 1

/-! ### json.dumps building blocks -/

/-- A JSON string literal (no escaping: the app never emits quotes in data). -/
def jstr (s : String) : String := "\"" ++ s ++ "\""

/-- One `"key": value` member of a JSON object. -/
def jkey (k : String) (v : String) : String := jstr k ++ ": " ++ v

/-- A JSON object with the given members, json.dumps default separators. -/
def jobj (members : List String) : String :=
  "\x7b" ++ String.intercalate ", " members ++ "\x7d"

/-- A JSON array with the given elements. -/
def jarr (elems : List String) : String :=
  "[" ++ String.intercalate ", " elems ++ "]"

/-- json.dumps(None). -/
def jnull : String := "null"

/-! ### Serializers (db.py) -/

/-- User.simple_serialize. -/
def UserRow.simple_serialize (u : UserRow) : String :=
  jobj [jkey "id" (toString u.id), jkey "username" (jstr u.username)]

/-- Song.simple_serialize. -/
def SongRow.simple_serialize (s : SongRow) : String :=
  jobj [jkey "id" (toString s.id), jkey "title" (jstr s.title),
        jkey "artist" (jstr s.artist), jkey "bpm" (toString s.bpm),
        jkey "link" (jstr s.link)]

/-- Img.simple_serialize. -/
def ImgRow.simple_serialize (i : ImgRow) : String :=
  jobj [jkey "id" (toString i.id), jkey "link" (jstr i.link)]

/-- Playlist.no_image_serialize. -/
def PlaylistRow.no_image_serialize (p : PlaylistRow) : String :=
  jobj [jkey "id" (toString p.id), jkey "playlist_name" (jstr p.playlist_name)]

/-- The playlist's `image` relationship: the Img row its `image_id` points to. -/
def PlaylistRow.imageRow (db : DB) (p : PlaylistRow) : Option ImgRow :=
  p.image_id.bind (fun iid => db.images.find? (fun i => i.id == iid))

/-- `self.image.simple_serialize() if self.image is not None else None`. -/
def playlistImageField (db : DB) (p : PlaylistRow) : String :=
  match p.imageRow db with
  | some i => i.simple_serialize
  | none => jnull

/-- Playlist.simple_serialize. -/
def PlaylistRow.simple_serialize (db : DB) (p : PlaylistRow) : String :=
  jobj [jkey "id" (toString p.id), jkey "playlist_name" (jstr p.playlist_name),
        jkey "image" (playlistImageField db p)]

/-- The playlist's `user` relationship; through the handlers `user_id` always
references a row, so the null branch is unreachable. -/
def playlistUserField (db : DB) (p : PlaylistRow) : String :=
  match db.users.find? (fun u => u.id == p.user_id) with
  | some u => u.simple_serialize
  | none => jnull

/-- The playlist's `songs` relationship: one song row per join-table row with
this playlist's id, in join-table order. -/
def playlistSongRows (db : DB) (pid : Nat) : List SongRow :=
  (db.assoc.filter (fun pr => pr.1 == pid)).filterMap
    (fun pr => db.songs.find? (fun s => s.id == pr.2))

/-- Playlist.serialize. -/
def PlaylistRow.serialize (db : DB) (p : PlaylistRow) : String :=
  jobj [jkey "id" (toString p.id), jkey "playlist_name" (jstr p.playlist_name),
        jkey "image" (playlistImageField db p),
        jkey "user" (playlistUserField db p),
        jkey "songs" (jarr ((playlistSongRows db p.id).map SongRow.simple_serialize))]

/-- User.serialize. -/
def UserRow.serialize (db : DB) (u : UserRow) : String :=
  jobj [jkey "id" (toString u.id), jkey "username" (jstr u.username),
        jkey "playlists" (jarr ((db.playlists.filter (fun p => p.user_id == u.id)).map
          (PlaylistRow.simple_serialize db)))]

/-- Img.serialize; the back-reference is the playlist whose `image_id` points
at this image. -/
def ImgRow.serialize (db : DB) (i : ImgRow) : String :=
  jobj [jkey "id" (toString i.id), jkey "link" (jstr i.link),
        jkey "playlist"
          (match db.playlists.find? (fun p => p.image_id == some i.id) with
           | some p => p.no_image_serialize
           | none => jnull)]

/-! ### Responses (app.py) -/

/-- An HTTP response: the json.dumps body and the status code. -/
structure Resp where
  body : String
  code : Nat
deriving DecidableEq, Repr

/-- app.py success_response. -/
def success_response (data : String) (code : Nat) : Resp := ⟨data, code⟩

/-- app.py failure_response: json.dumps of the error envelope. -/
def failure_response (message : String) (code : Nat) : Resp :=
  ⟨jobj [jkey "error" (jstr message)], code⟩

/-! ### Asset creation pipeline (db.py) -/

/-- Supported image extensions (db.py EXTENSIONS). -/
def EXTENSIONS : List String := ["png", "gif", "jpg", "jpeg"]

/-- The S3_BUCKET_NAME environment variable, modelled as a fixed name. -/
def S3_BUCKET_NAME : String := "bucket"

/-- db.py S3_BASE_URL. -/
def S3_BASE_URL : String :=
  "https://" ++ S3_BUCKET_NAME ++ ".s3.us-east-1.amazonaws.com"

/-- string.ascii_uppercase ++ string.digits, the salt alphabet. -/
def ALPHABET : List Char := "ABCDEFGHIJKLMNOPQRSTUVWXYZ0123456789".data

/-- The 16 draws of random.SystemRandom().choice(ALPHABET); the random stream
is passed in as a function from draw index to alphabet index (the `getD`
default is never used: every index is below the alphabet length 36). -/
def mkSalt (r : Nat → Fin 36) : String :=
  String.mk ((List.range 16).map (fun i => ALPHABET.getD (r i).val 'A'))

/-- The base64 payload sent by the client, abstracted to what the pipeline
observes of it: the extension mimetypes guesses from its data-URL header
(`none` when guessing raises), whether base64/PIL decoding succeeds, the
decoded pixel dimensions, and whether the external S3 upload succeeds. -/
structure ImageData where
  extGuess : Option String
  decodeOk : Bool
  width : Nat
  height : Nat
  uploadOk : Bool

/-- The nullable columns of an Asset object while it is being populated. -/
structure AssetFields where
  base_url : Option String
  salt : Option String
  extension : Option String
  width : Option Nat
  height : Option Nat
  created_at : Option Nat
deriving DecidableEq, Repr

/-- A freshly constructed Asset object: nothing populated yet. -/
def AssetFields.unset : AssetFields := ⟨none, none, none, none, none, none⟩

/-- db.py Asset.upload: wrapped in its own try/except so it never raises;
returns the remote filename it stored (none on failure) and its log lines. -/
def Asset.upload (d : ImageData) (img_filename : String) : Option String × List String :=
  if d.uploadOk then (some img_filename, [])
  else (none, ["Error when uploading image"])

/-- The body of db.py Asset.create's try-block, in source order: extension
check, salt generation, decode, field population, upload.  An `error` is the
exception the try-block raises at that point. -/
def Asset.createBody (d : ImageData) (r : Nat → Fin 36) (now : Nat) :
    Except String (AssetFields × Option String × List String) :=
  match d.extGuess with
  | none => .error "guess_extension failed"
  | some ext =>
    if EXTENSIONS.contains ext then
      let salt := mkSalt r
      if d.decodeOk then
        let fields : AssetFields :=
          ⟨some S3_BASE_URL, some salt, some ext, some d.width, some d.height, some now⟩
        let up := Asset.upload d (salt ++ "." ++ ext)
        .ok (fields, up.1, up.2)
      else .error "could not decode image data"
    else .error ("Extension " ++ ext ++ " is not valid.")

/-- db.py Asset.create: runs the try-block under try/except; an exception is
caught and logged, leaving every field unset.  The Asset constructor is
exactly this function, so it always returns. -/
def Asset.create (d : ImageData) (r : Nat → Fin 36) (now : Nat) :
    AssetFields × Option String × List String :=
  match Asset.createBody d r now with
  | .ok out => out
  | .error e => (AssetFields.unset, none, ["Error when creating image: " ++ e])

/-- The url field of db.py Asset.serialize for a committed row. -/
def AssetRow.url (a : AssetRow) : String :=
  a.base_url ++ "/" ++ a.salt ++ "." ++ a.extension

/-! ### Request handlers (app.py) -/

/-- Unhandled Python exceptions a handler can abort with. -/
inductive Fault where
  | deleteNone
  | integrityError
deriving DecidableEq, Repr

/-- app.py create_new_user (POST /users/). -/
def create_new_user (db : DB) (username : Option String) : Resp × DB :=
  match username with
  | none => (failure_response "Please input a username" 400, db)
  | some name =>
    let uid := freshId (db.users.map (fun u => u.id))
    let row : UserRow := ⟨uid, name⟩
    let db' : DB := { db with users := db.users ++ [row] }
    (success_response (UserRow.serialize db' row) 200, db')

/-- app.py add_song_to_database (POST /songs/add/): the duplicate check
compares exists_serialize of the new song with every stored song, i.e. all
four of title, artist, bpm, link. -/
def add_song_to_database (db : DB) (title artist : Option String) (bpm : Option Int)
    (link : Option String) : Resp × DB :=
  match title, artist, bpm, link with
  | some t, some a, some b, some l =>
    if ∃ s ∈ db.songs, s.title = t ∧ s.artist = a ∧ s.bpm = b ∧ s.link = l then
      (failure_response "Song already exists" 401, db)
    else
      let sid := freshId (db.songs.map (fun s => s.id))
      let row : SongRow := ⟨sid, t, a, b, l⟩
      (success_response row.simple_serialize 201, { db with songs := db.songs ++ [row] })
  | _, _, _, _ => (failure_response "Please input all requested data" 400, db)

/-- app.py get_songs_bpm (GET /songs/search/): keeps the songs whose bpm lies
in python's range(lower_bpm, upper_bpm + 1). -/
def get_songs_bpm (db : DB) (lower_bpm upper_bpm : Option Int) : Resp × DB :=
  match lower_bpm, upper_bpm with
  | some lo, some hi =>
    let filtered := db.songs.filter (fun s => decide (lo ≤ s.bpm) && decide (s.bpm < hi + 1))
    if filtered.isEmpty then (failure_response "No songs in this range were found" 400, db)
    else (success_response (jarr (filtered.map SongRow.simple_serialize)) 200, db)
  | _, _ => (failure_response "Please input a bpm range" 400, db)

/-- app.py get_user_playlists (GET /users/id/playlists/). -/
def get_user_playlists (db : DB) (user_id : Nat) : Resp × DB :=
  match db.users.find? (fun u => u.id == user_id) with
  | none => (failure_response "User not found" 404, db)
  | some _ =>
    let ps := (db.playlists.filter (fun p => p.user_id == user_id)).map
      (PlaylistRow.simple_serialize db)
    (success_response (jobj [jkey "playlists" (jarr ps)]) 200, db)

/-- app.py create_new_playlist (POST /users/id/playlists/): the user lookup
happens before the body is read. -/
def create_new_playlist (db : DB) (user_id : Nat) (playlist_name : Option String) :
    Resp × DB :=
  match db.users.find? (fun u => u.id == user_id) with
  | none => (failure_response "User not found" 404, db)
  | some _ =>
    match playlist_name with
    | none => (failure_response "Please input a playlist name" 400, db)
    | some name =>
      let pid := freshId (db.playlists.map (fun p => p.id))
      let row : PlaylistRow := ⟨pid, name, user_id, none⟩
      let db' : DB := { db with playlists := db.playlists ++ [row] }
      (success_response (PlaylistRow.simple_serialize db' row) 200, db')

/-- app.py get_specific_playlist (GET /playlists/id/). -/
def get_specific_playlist (db : DB) (playlist_id : Nat) : Resp × DB :=
  match db.playlists.find? (fun p => p.id == playlist_id) with
  | none => (failure_response "Playlist not found" 404, db)
  | some p => (success_response (p.serialize db) 200, db)

/-- app.py delete_playlist (DELETE /playlists/id/): the playlist row goes,
its join-table rows go, and the delete-orphan cascade on Playlist.image takes
the Img row with it; Asset rows and the remote store are untouched. -/
def delete_playlist (db : DB) (playlist_id : Nat) : Resp × DB :=
  match db.playlists.find? (fun p => p.id == playlist_id) with
  | none => (failure_response "Playlist not found" 404, db)
  | some p =>
    let deleted := p.serialize db
    let db' : DB :=
      { db with playlists := db.playlists.filter (fun q => !(q.id == playlist_id)),
                images := db.images.filter (fun i => !(some i.id == p.image_id)),
                assoc := db.assoc.filter (fun pr => !(pr.1 == playlist_id)) }
    (success_response deleted 200, db')

/-- app.py add_song_to_playlist (POST /playlists/id/songs/id/): no membership
check; playlist.songs.append inserts one join-table row unconditionally. -/
def add_song_to_playlist (db : DB) (playlist_id song_id : Nat) : Resp × DB :=
  match db.playlists.find? (fun p => p.id == playlist_id) with
  | none => (failure_response "Playlist not found" 404, db)
  | some _ =>
    match db.songs.find? (fun s => s.id == song_id) with
    | none => (failure_response "Song not found" 404, db)
    | some s =>
      (success_response s.simple_serialize 200,
       { db with assoc := db.assoc ++ [(playlist_id, song_id)] })

/-- app.py remove_song_from_playlist (DELETE /playlists/id/songs/id/):
playlist.songs.index checks membership; the flush of playlist.songs.remove
issues one DELETE on the join table matching both columns, which removes every
(playlist_id, song_id) copy at once. -/
def remove_song_from_playlist (db : DB) (playlist_id song_id : Nat) : Resp × DB :=
  match db.playlists.find? (fun p => p.id == playlist_id) with
  | none => (failure_response "Playlist not found" 404, db)
  | some _ =>
    match db.songs.find? (fun s => s.id == song_id) with
    | none => (failure_response "Song not found" 404, db)
    | some s =>
      if (playlist_id, song_id) ∈ db.assoc then
        (success_response s.simple_serialize 200,
         { db with assoc := db.assoc.filter (fun pr => !(pr == (playlist_id, song_id))) })
      else (failure_response "Song not in playlist" 400, db)

/-- app.py get_song_from_playlist (GET /songs/id/). -/
def get_song_from_playlist (db : DB) (song_id : Nat) : Resp × DB :=
  match db.songs.find? (fun s => s.id == song_id) with
  | none => (failure_response "Song not found" 404, db)
  | some s => (success_response s.simple_serialize 200, db)

/-- app.py upload_playlist_image (POST /playlists/id/images/).  The playlist
lookup happens before the body is read; a missing image_data key gets the
default 404.  Committing the Asset faults (IntegrityError) when the creation
pipeline failed and left the NOT NULL columns unset.  Creating the Img row
sets the back-reference, which replaces the playlist's previous image; the
delete-orphan cascade drops the replaced Img row (inserts flush before
deletes, so the new id is drawn with the old row still present). -/
def upload_playlist_image (db : DB) (playlist_id : Nat) (image_data : Option ImageData)
    (r : Nat → Fin 36) (now : Nat) : Except Fault (Resp × DB) :=
  match db.playlists.find? (fun p => p.id == playlist_id) with
  | none => .ok (failure_response "Playlist not found" 404, db)
  | some p =>
    match image_data with
    | none => .ok (failure_response "No base64 image found." 404, db)
    | some d =>
      let created := Asset.create d r now
      match created.1.base_url, created.1.salt, created.1.extension,
            created.1.width, created.1.height, created.1.created_at with
      | some burl, some salt, some ext, some w, some h, some ts =>
        let aid := freshId (db.assets.map (fun a => a.id))
        let arow : AssetRow := ⟨aid, burl, salt, ext, w, h, ts⟩
        let db1 : DB :=
          { db with assets := db.assets ++ [arow],
                    remote := db.remote ++ (match created.2.1 with
                                            | some name => [name]
                                            | none => []) }
        let iid := freshId (db1.images.map (fun i => i.id))
        let irow : ImgRow := ⟨iid, arow.url⟩
        let db2 : DB :=
          { db1 with images := (db1.images.filter (fun i => !(some i.id == p.image_id))) ++ [irow],
                     playlists := db1.playlists.map
                       (fun q => if q.id == playlist_id then { q with image_id := some iid } else q) }
        .ok (success_response (ImgRow.serialize db2 irow) 201, db2)
      | _, _, _, _, _, _ => .error .integrityError

/-- app.py remove_playlist_image (DELETE /playlists/id/images/).  Both lookups
use playlist.image_id as the row id; db.session.delete(None) raises, so a
missing Asset row with that id aborts the request. -/
def remove_playlist_image (db : DB) (playlist_id : Nat) : Except Fault (Resp × DB) :=
  match db.playlists.find? (fun p => p.id == playlist_id) with
  | none => .ok (failure_response "Playlist not found" 404, db)
  | some p =>
    let image := p.image_id.bind (fun iid => db.images.find? (fun i => i.id == iid))
    let asset := p.image_id.bind (fun iid => db.assets.find? (fun a => a.id == iid))
    match image with
    | none => .ok (failure_response "There is no image associated with this playlist" 404, db)
    | some img =>
      match asset with
      | none => .error .deleteNone
      | some a =>
        let resp := success_response (ImgRow.serialize db img) 200
        let db' : DB :=
          { db with images := db.images.filter (fun i => !(i.id == img.id)),
                    assets := db.assets.filter (fun b => !(b.id == a.id)),
                    playlists := db.playlists.map
                      (fun q => if q.id == playlist_id then { q with image_id := none } else q) }
        .ok (resp, db')

/-- The core routes of app.py, one constructor per endpoint (the /test/ dump
and table-drop routes are auxiliary tooling, spec section 6, and not part of
the modelled surface). -/
inductive Req where
  | createUser (username : Option String)
  | addSong (title artist : Option String) (bpm : Option Int) (link : Option String)
  | searchSongs (lower_bpm upper_bpm : Option Int)
  | userPlaylists (user_id : Nat)
  | createPlaylist (user_id : Nat) (playlist_name : Option String)
  | getPlaylist (playlist_id : Nat)
  | deletePlaylist (playlist_id : Nat)
  | addPlaylistSong (playlist_id song_id : Nat)
  | removePlaylistSong (playlist_id song_id : Nat)
  | getSong (song_id : Nat)
  | uploadImage (playlist_id : Nat) (image_data : Option ImageData) (r : Nat → Fin 36) (now : Nat)
  | removeImage (playlist_id : Nat)

/-- Dispatch a request to its handler. -/
def handle (req : Req) (db : DB) : Except Fault (Resp × DB) :=
  match req with
  | .createUser u => .ok (create_new_user db u)
  | .addSong t a b l => .ok (add_song_to_database db t a b l)
  | .searchSongs lo hi => .ok (get_songs_bpm db lo hi)
  | .userPlaylists uid => .ok (get_user_playlists db uid)
  | .createPlaylist uid name => .ok (create_new_playlist db uid name)
  | .getPlaylist pid => .ok (get_specific_playlist db pid)
  | .deletePlaylist pid => .ok (delete_playlist db pid)
  | .addPlaylistSong pid sid => .ok (add_song_to_playlist db pid sid)
  | .removePlaylistSong pid sid => .ok (remove_song_from_playlist db pid sid)
  | .getSong sid => .ok (get_song_from_playlist db sid)
  | .uploadImage pid d r now => upload_playlist_image db pid d r now
  | .removeImage pid => remove_playlist_image db pid

/-- The state after a request: the new state on success, the old state when the
request aborted (the transaction was never committed). -/
def run (req : Req) (db : DB) : DB :=
  match handle req db with
  | .ok out => out.2
  | .error _ => db

/-! ### Concrete scenarios (reachable states, built only through the handlers) -/

/-- A constant random stream: every salt character draws alphabet index 0. -/
def rA : Nat → Fin 36 := fun _ => ⟨0, by omega⟩

/-- A constant random stream: every salt character draws alphabet index 1. -/
def rB : Nat → Fin 36 := fun _ => ⟨1, by omega⟩

/-- A valid png upload whose decode and S3 upload both succeed. -/
def goodImg : ImageData := ⟨some "png", true, 1, 1, true⟩

/-- An upload whose data-URL header names an unsupported image type. -/
def badImg : ImageData := ⟨some "bmp", true, 1, 1, true⟩

/-- After POST /users/ with username alice. -/
def dbA1 : DB := run (.createUser (some "alice")) DB.empty

/-- After POST /users/1/playlists/ with playlist_name P (playlist id 1). -/
def dbA2 : DB := run (.createPlaylist 1 (some "P")) dbA1

/-- After POST /users/1/playlists/ with playlist_name Q (playlist id 2). -/
def dbA3 : DB := run (.createPlaylist 1 (some "Q")) dbA2

/-- After POST /playlists/1/images/: asset 1 (salt A...), image 1 on P. -/
def dbA4 : DB := run (.uploadImage 1 (some goodImg) rA 0) dbA3

/-- After DELETE /playlists/1/: the cascade removed image 1, asset 1 stayed. -/
def dbA5 : DB := run (.deletePlaylist 1) dbA4

/-- After POST /playlists/2/images/: asset 2 (salt B...), and the freed image
id 1 is reused for Q's new image, so Q.image_id = 1 while the asset that
produced its link has id 2. -/
def dbA6 : DB := run (.uploadImage 2 (some goodImg) rB 0) dbA5

/-! ### Scenario B: songs and join-table states, built only through handlers -/

/-- After POST /songs/add/ (title T, artist Art, bpm 100, link L): song 1. -/
def dbB1 : DB := run (.addSong (some "T") (some "Art") (some 100) (some "L")) dbA2

/-- After POST /playlists/1/songs/1/: join table [(1, 1)]. -/
def dbB2 : DB := run (.addPlaylistSong 1 1) dbB1

/-- After a second POST /playlists/1/songs/1/. -/
def dbB3 : DB := run (.addPlaylistSong 1 1) dbB2

/-- After POST /songs/add/ (T2, Art2, 110, L2): song 2. -/
def dbB4 : DB := run (.addSong (some "T2") (some "Art2") (some 110) (some "L2")) dbB2

/-- After POST /playlists/1/songs/2/: join table [(1, 1), (1, 2)]. -/
def dbB5 : DB := run (.addPlaylistSong 1 2) dbB4

/-- After POST /playlists/1/songs/1/ on dbB5 (song 1 already a member). -/
def dbB6 : DB := run (.addPlaylistSong 1 1) dbB5

/-- After DELETE /playlists/1/songs/1/ on dbB6. -/
def dbB7 : DB := run (.removePlaylistSong 1 1) dbB6

/-- C1: in state dbA6 (reached from empty purely through the endpoints:
create user, create playlists P and Q, upload an image to P, delete P, upload
an image to Q), playlist 2's image is row 1 and its link is the url of Asset 2
(whose upload produced it), while Asset 1 is a leftover of the deleted
playlist P.  DELETE /playlists/2/images/ deletes Asset 1 — the row whose id
merely coincides with playlist.image_id — and leaves Asset 2, the asset
associated with the image, in the table.  This contradicts the claim and the
handler's own docstring. -/
theorem C1_remove_image_deletes_unrelated_asset :
    dbA6.images = [⟨1, "https://bucket.s3.us-east-1.amazonaws.com/BBBBBBBBBBBBBBBB.png"⟩] ∧
    (dbA6.playlists.find? (fun p => p.id == 2)).map (fun p => p.image_id) = some (some 1) ∧
    dbA6.assets.map (fun a => (a.id, a.url)) =
      [(1, "https://bucket.s3.us-east-1.amazonaws.com/AAAAAAAAAAAAAAAA.png"),
       (2, "https://bucket.s3.us-east-1.amazonaws.com/BBBBBBBBBBBBBBBB.png")] ∧
    (run (.removeImage 2) dbA6).images = [] ∧
    (run (.removeImage 2) dbA6).assets.map (fun a => (a.id, a.url)) =
      [(2, "https://bucket.s3.us-east-1.amazonaws.com/BBBBBBBBBBBBBBBB.png")] := by
  refine ⟨?_, ?_, ?_, ?_, ?_⟩ <;> decide

/-- C2 counterexample: in state dbA4 (user, playlist 1 with image 1 and asset
1), DELETE /playlists/1/ removes the playlist and, via the delete-orphan
cascade, the Image row — but the Asset row survives untouched, contradicting
the claim that the Asset row is removed too. -/
theorem C2_cx_delete_playlist_keeps_asset :
    (dbA4.playlists.find? (fun p => p.id == 1)).map (fun p => p.image_id) = some (some 1) ∧
    dbA4.assets.map (fun a => a.id) = [1] ∧
    (delete_playlist dbA4 1).2.images = [] ∧
    (delete_playlist dbA4 1).2.assets = dbA4.assets := by
  refine ⟨?_, ?_, ?_, ?_⟩ <;> decide

/-- C2 (amended): deleting a playlist that has an attached image removes the
Image row via the cascade and returns 200, but leaves the Asset table and the
remote store unchanged (no remote-delete is ever invoked). -/
theorem C2_delete_playlist_removes_image_keeps_asset
    (db : DB) (pid : Nat) (p : PlaylistRow) (iid : Nat)
    (hp : db.playlists.find? (fun q => q.id == pid) = some p)
    (hi : p.image_id = some iid) :
    (delete_playlist db pid).2.images = db.images.filter (fun i => !(i.id == iid)) ∧
    (delete_playlist db pid).2.assets = db.assets ∧
    (delete_playlist db pid).2.remote = db.remote ∧
    (delete_playlist db pid).1.code = 200 := by
  refine ⟨?_, by simp [delete_playlist, hp], by simp [delete_playlist, hp],
    by simp [delete_playlist, hp, success_response]⟩
  have h1 : (delete_playlist db pid).2.images =
      db.images.filter (fun i => !(some i.id == p.image_id)) := by
    simp [delete_playlist, hp]
  rw [h1, hi]
  apply List.filter_congr
  intro i _
  simp

/-- Witness for the amended C2 at the concrete state dbA4. -/
theorem C2_delete_playlist_removes_image_keeps_asset_witness :
    (delete_playlist dbA4 1).2.images = dbA4.images.filter (fun i => !(i.id == 1)) ∧
    (delete_playlist dbA4 1).2.assets = dbA4.assets ∧
    (delete_playlist dbA4 1).2.remote = dbA4.remote ∧
    (delete_playlist dbA4 1).1.code = 200 :=
  C2_delete_playlist_removes_image_keeps_asset dbA4 1 ⟨1, "P", 1, some 1⟩ 1
    (by decide) (by decide)

/-- C5 counterexample: in dbB2 song 1 is already a member of playlist 1, yet a
second POST /playlists/1/songs/1/ inserts a second (1, 1) pair into the join
table — the add handler performs no membership check. -/
theorem C5_cx_duplicate_pair :
    dbB2.assoc = [(1, 1)] ∧ dbB3.assoc = [(1, 1), (1, 1)] := by
  exact ⟨by decide, by decide⟩

/-- C5 (amended): when the playlist and song both exist, the add handler
appends one (playlist_id, song_id) pair to the join table unconditionally —
in particular a pair that is already present is duplicated. -/
theorem C5_add_song_appends_unconditionally
    (db : DB) (pid sid : Nat) (p : PlaylistRow) (s : SongRow)
    (hp : db.playlists.find? (fun q => q.id == pid) = some p)
    (hs : db.songs.find? (fun q => q.id == sid) = some s) :
    add_song_to_playlist db pid sid =
      (success_response s.simple_serialize 200,
       { db with assoc := db.assoc ++ [(pid, sid)] }) := by
  simp [add_song_to_playlist, hp, hs]

/-- Witness for the amended C5 at dbB2, where (1, 1) is already a member. -/
theorem C5_add_song_appends_unconditionally_witness :
    add_song_to_playlist dbB2 1 1 =
      (success_response (SongRow.simple_serialize ⟨1, "T", "Art", 100, "L"⟩) 200,
       { dbB2 with assoc := dbB2.assoc ++ [(1, 1)] }) :=
  C5_add_song_appends_unconditionally dbB2 1 1 ⟨1, "P", 1, none⟩ ⟨1, "T", "Art", 100, "L"⟩
    (by decide) (by decide)

/-- C6 counterexample: in dbB5 playlist 1 holds songs [1, 2]; adding song 1
again and immediately removing it leaves the playlist with songs [2] — the
flush of list.remove deletes every (1, 1) join row, so the round trip does not
restore the prior song list. -/
theorem C6_cx_roundtrip_changes_playlist :
    dbB5.assoc = [(1, 1), (1, 2)] ∧
    dbB6.assoc = [(1, 1), (1, 2), (1, 1)] ∧
    dbB7.assoc = [(1, 2)] ∧
    playlistSongRows dbB7 1 ≠ playlistSongRows dbB5 1 := by
  refine ⟨?_, ?_, ?_, ?_⟩ <;> decide

/-- C6 (amended): for an existing playlist and song, (a) if the song is not
yet a member, add followed by remove restores the state exactly; (b) if it is
already a member, the remove deletes every copy of the pair, so the round trip
removes the song from the playlist instead of restoring it; (c) removing a
non-member song fails with 400 and leaves the state unchanged. -/
theorem C6_roundtrip
    (db : DB) (pid sid : Nat) (p : PlaylistRow) (s : SongRow)
    (hp : db.playlists.find? (fun q => q.id == pid) = some p)
    (hs : db.songs.find? (fun q => q.id == sid) = some s) :
    ((pid, sid) ∉ db.assoc →
      (remove_song_from_playlist (add_song_to_playlist db pid sid).2 pid sid).2 = db) ∧
    ((pid, sid) ∈ db.assoc →
      (remove_song_from_playlist (add_song_to_playlist db pid sid).2 pid sid).2 =
        { db with assoc := db.assoc.filter (fun pr => !(pr == (pid, sid))) }) ∧
    ((pid, sid) ∉ db.assoc →
      remove_song_from_playlist db pid sid = (failure_response "Song not in playlist" 400, db)) := by
  have hadd : add_song_to_playlist db pid sid =
      (success_response s.simple_serialize 200,
       { db with assoc := db.assoc ++ [(pid, sid)] }) := by
    simp [add_song_to_playlist, hp, hs]
  have hfilter : (db.assoc ++ [(pid, sid)]).filter (fun pr => !(pr == (pid, sid))) =
      db.assoc.filter (fun pr => !(pr == (pid, sid))) := by
    simp [List.filter_append]
  refine ⟨?_, ?_, ?_⟩
  · intro hmem
    rw [hadd]
    simp only [remove_song_from_playlist, hp, hs]
    rw [if_pos (by simp)]
    simp only [hfilter]
    have : db.assoc.filter (fun pr => !(pr == (pid, sid))) = db.assoc := by
      apply List.filter_eq_self.mpr
      intro pr hpr
      simp only [Bool.not_eq_eq_eq_not, Bool.not_true, beq_eq_false_iff_ne, ne_eq]
      intro h
      exact hmem (h ▸ hpr)
    simp [this]
  · intro hmem
    rw [hadd]
    simp only [remove_song_from_playlist, hp, hs]
    rw [if_pos (by simp)]
    simp [hfilter]
  · intro hmem
    simp only [remove_song_from_playlist, hp, hs]
    rw [if_neg hmem]

/-- Witness for the amended C6 at dbB1 (empty join table): the round trip on
(1, 1) is the identity, and removing the non-member pair fails with 400. -/
theorem C6_roundtrip_witness :
    (remove_song_from_playlist (add_song_to_playlist dbB1 1 1).2 1 1).2 = dbB1 ∧
    remove_song_from_playlist dbB1 1 1 = (failure_response "Song not in playlist" 400, dbB1) := by
  have h := C6_roundtrip dbB1 1 1 ⟨1, "P", 1, none⟩ ⟨1, "T", "Art", 100, "L"⟩
    (by decide) (by decide)
  exact ⟨h.1 (by decide), h.2.2 (by decide)⟩

/-- C3: for every stored set of songs and every pair of integer bounds, the
tempo search returns exactly the songs whose bpm satisfies
lower_bpm ≤ bpm ≤ upper_bpm (inclusive on both ends, in stored order), and
returns the 400 failure when that set is empty. -/
theorem C3_tempo_search_inclusive_range (db : DB) (lo hi : Int) :
    (db.songs.filter (fun s => decide (lo ≤ s.bpm) && decide (s.bpm ≤ hi)) = [] →
      get_songs_bpm db (some lo) (some hi) =
        (failure_response "No songs in this range were found" 400, db)) ∧
    (db.songs.filter (fun s => decide (lo ≤ s.bpm) && decide (s.bpm ≤ hi)) ≠ [] →
      get_songs_bpm db (some lo) (some hi) =
        (success_response
          (jarr ((db.songs.filter (fun s => decide (lo ≤ s.bpm) && decide (s.bpm ≤ hi))).map
            SongRow.simple_serialize)) 200, db)) := by
  have hfe : db.songs.filter (fun s => decide (lo ≤ s.bpm) && decide (s.bpm < hi + 1)) =
      db.songs.filter (fun s => decide (lo ≤ s.bpm) && decide (s.bpm ≤ hi)) := by
    apply List.filter_congr
    intro s _
    congr 1
    exact decide_eq_decide.mpr Int.lt_add_one_iff
  constructor
  · intro h
    simp only [get_songs_bpm, hfe, h]
    simp
  · intro h
    simp only [get_songs_bpm, hfe]
    rw [if_neg (by simpa [List.isEmpty_iff] using h)]

/-- Witness for C3 at dbB1 (one song, bpm 100): bounds 90..110 catch it,
bounds 200..300 give the empty-range 400 failure. -/
theorem C3_tempo_search_inclusive_range_witness :
    get_songs_bpm dbB1 (some 90) (some 110) =
      (success_response
        (jarr ((dbB1.songs.filter (fun s => decide ((90 : Int) ≤ s.bpm) && decide (s.bpm ≤ (110 : Int)))).map
          SongRow.simple_serialize)) 200, dbB1) ∧
    get_songs_bpm dbB1 (some 200) (some 300) =
      (failure_response "No songs in this range were found" 400, dbB1) :=
  ⟨(C3_tempo_search_inclusive_range dbB1 90 110).2 (by decide),
   (C3_tempo_search_inclusive_range dbB1 200 300).1 (by decide)⟩

/-- C4: with all four fields supplied, POST /songs/add/ answers the 401
duplicate failure (and leaves the state unchanged) exactly when some stored
song matches on all of title, artist, bpm and link; and two inserts whose
tuples differ in at least one field, neither tuple already stored, both
succeed with 201. -/
theorem C4_song_duplicate_rule (db : DB) (t a l : String) (b : Int) :
    (add_song_to_database db (some t) (some a) (some b) (some l) =
        (failure_response "Song already exists" 401, db) ↔
      ∃ s ∈ db.songs, s.title = t ∧ s.artist = a ∧ s.bpm = b ∧ s.link = l) ∧
    (∀ (t2 a2 l2 : String) (b2 : Int),
      ¬(t = t2 ∧ a = a2 ∧ b = b2 ∧ l = l2) →
      (¬∃ s ∈ db.songs, s.title = t ∧ s.artist = a ∧ s.bpm = b ∧ s.link = l) →
      (¬∃ s ∈ db.songs, s.title = t2 ∧ s.artist = a2 ∧ s.bpm = b2 ∧ s.link = l2) →
      (add_song_to_database db (some t) (some a) (some b) (some l)).1.code = 201 ∧
      (add_song_to_database
          (add_song_to_database db (some t) (some a) (some b) (some l)).2
          (some t2) (some a2) (some b2) (some l2)).1.code = 201) := by
  constructor
  · by_cases hdup : ∃ s ∈ db.songs, s.title = t ∧ s.artist = a ∧ s.bpm = b ∧ s.link = l
    · constructor
      · intro _
        exact hdup
      · intro _
        simp only [add_song_to_database, if_pos hdup]
    · simp only [add_song_to_database, if_neg hdup]
      constructor
      · intro h
        have hcode := congrArg (fun x => x.1.code) h
        simp [success_response, failure_response] at hcode
      · intro h
        exact absurd h hdup
  · intro t2 a2 l2 b2 hne h1 h2
    have hfst : add_song_to_database db (some t) (some a) (some b) (some l) =
        (success_response
          (SongRow.simple_serialize ⟨freshId (db.songs.map (fun s => s.id)), t, a, b, l⟩) 201,
         { db with songs := db.songs ++ [⟨freshId (db.songs.map (fun s => s.id)), t, a, b, l⟩] }) := by
      simp only [add_song_to_database, if_neg h1]
    refine ⟨by rw [hfst]; rfl, ?_⟩
    rw [hfst]
    have h2' : ¬∃ s ∈ db.songs ++ [(⟨freshId (db.songs.map (fun s => s.id)), t, a, b, l⟩ : SongRow)],
        s.title = t2 ∧ s.artist = a2 ∧ s.bpm = b2 ∧ s.link = l2 := by
      rintro ⟨s, hmem, hprop⟩
      rcases List.mem_append.mp hmem with hm | hm
      · exact h2 ⟨s, hm, hprop⟩
      · rw [List.mem_singleton] at hm
        subst hm
        exact hne hprop
    simp only [add_song_to_database, if_neg h2']
    rfl

/-- Witness for C4: on the empty database, inserting (X, Y, 1, Z) and then
(W, Y, 1, Z) — differing in the title — both answer 201. -/
theorem C4_song_duplicate_rule_witness :
    (add_song_to_database DB.empty (some "X") (some "Y") (some 1) (some "Z")).1.code = 201 ∧
    (add_song_to_database
        (add_song_to_database DB.empty (some "X") (some "Y") (some 1) (some "Z")).2
        (some "W") (some "Y") (some 1) (some "Z")).1.code = 201 :=
  (C4_song_duplicate_rule DB.empty "X" "Y" "Z" 1).2 "W" "Y" "Z" 1
    (by decide) (by decide) (by decide)

/-- C10: in create-playlist and upload-playlist-image, the path entity is
looked up before the body is read, so a missing user/playlist answers the 404
not-found failure for every body — including a body missing its required
field, which would otherwise be a 400. -/
theorem C10_entity_checked_before_body
    (db : DB) (uid pid : Nat) (name : Option String) (d : Option ImageData)
    (r : Nat → Fin 36) (now : Nat)
    (hu : db.users.find? (fun u => u.id == uid) = none)
    (hp : db.playlists.find? (fun p => p.id == pid) = none) :
    create_new_playlist db uid name = (failure_response "User not found" 404, db) ∧
    upload_playlist_image db pid d r now = .ok (failure_response "Playlist not found" 404, db) := by
  constructor
  · simp [create_new_playlist, hu]
  · simp [upload_playlist_image, hp]

/-- Witness for C10 on the empty database with both required body fields
missing: the answers are still the 404 not-found failures. -/
theorem C10_entity_checked_before_body_witness :
    create_new_playlist DB.empty 1 none = (failure_response "User not found" 404, DB.empty) ∧
    upload_playlist_image DB.empty 1 none rA 0 =
      .ok (failure_response "Playlist not found" 404, DB.empty) :=
  C10_entity_checked_before_body DB.empty 1 1 none none rA 0 (by decide) (by decide)

/-- The salt always has length 16. -/
theorem mkSalt_length (r : Nat → Fin 36) : (mkSalt r).length = 16 := by
  simp [mkSalt, String.length]

/-- Every salt character is drawn from the uppercase+digit alphabet. -/
theorem mkSalt_chars (r : Nat → Fin 36) : ∀ c ∈ (mkSalt r).data, c ∈ ALPHABET := by
  intro c hc
  obtain ⟨i, _, rfl⟩ := List.mem_map.mp hc
  have h36 : (r i).val < ALPHABET.length := by
    have h1 : ALPHABET.length = 36 := rfl
    have h2 := (r i).isLt
    omega
  rw [List.getD_eq_getElem ALPHABET 'A' h36]
  exact List.getElem_mem h36

/-- Inversion of a successful run of the Asset.create try-block. -/
theorem createBody_ok (d : ImageData) (r : Nat → Fin 36) (now : Nat)
    (out : AssetFields × Option String × List String)
    (h : Asset.createBody d r now = .ok out) :
    ∃ ext, d.extGuess = some ext ∧ ext ∈ EXTENSIONS ∧ d.decodeOk = true ∧
      out = (⟨some S3_BASE_URL, some (mkSalt r), some ext,
              some d.width, some d.height, some now⟩,
             (Asset.upload d (mkSalt r ++ "." ++ ext)).1,
             (Asset.upload d (mkSalt r ++ "." ++ ext)).2) := by
  unfold Asset.createBody at h
  cases hg : d.extGuess with
  | none =>
    simp only [hg] at h
    exact Except.noConfusion h
  | some ext =>
    simp only [hg] at h
    by_cases hc : EXTENSIONS.contains ext = true
    · rw [if_pos hc] at h
      by_cases hd : d.decodeOk = true
      · rw [if_pos hd] at h
        cases h
        exact ⟨ext, rfl, by simpa using hc, hd, rfl⟩
      · rw [if_neg hd] at h
        exact Except.noConfusion h
    · rw [if_neg hc] at h
      exact Except.noConfusion h

/-- A failing try-block is caught: create returns the unset fields and the
caught-and-logged message. -/
theorem create_of_createBody_error (d : ImageData) (r : Nat → Fin 36) (now : Nat)
    (e : String) (h : Asset.createBody d r now = .error e) :
    Asset.create d r now = (AssetFields.unset, none, ["Error when creating image: " ++ e]) := by
  simp [Asset.create, h]

/-- An unsupported extension makes the try-block raise before any field is
populated. -/
theorem createBody_bad_ext (d : ImageData) (r : Nat → Fin 36) (now : Nat)
    (ext : String) (hg : d.extGuess = some ext) (hx : ext ∉ EXTENSIONS) :
    Asset.createBody d r now = .error ("Extension " ++ ext ++ " is not valid.") := by
  unfold Asset.createBody
  simp only [hg]
  rw [if_neg (by simpa using hx)]

/-- C8: when an upload request on an existing playlist succeeds, exactly one
Asset row is appended; its salt is a 16-character string over the
uppercase+digit alphabet, its extension is in the supported set, its base url
is the bucket url, its serialized url is base_url/salt.extension, and the
created Image row's link is exactly that url.  An input with an unsupported
extension is rejected with every field left unset. -/
theorem C8_asset_well_formed (db : DB) (pid : Nat) (d : ImageData)
    (r : Nat → Fin 36) (now : Nat) :
    (∀ p resp db', db.playlists.find? (fun q => q.id == pid) = some p →
      upload_playlist_image db pid (some d) r now = .ok (resp, db') →
      ∃ a : AssetRow, db'.assets = db.assets ++ [a] ∧
        a.salt.length = 16 ∧ (∀ c ∈ a.salt.data, c ∈ ALPHABET) ∧
        a.extension ∈ EXTENSIONS ∧ a.base_url = S3_BASE_URL ∧
        a.url = S3_BASE_URL ++ "/" ++ a.salt ++ "." ++ a.extension ∧
        ∃ i : ImgRow, i ∈ db'.images ∧ i.link = a.url) ∧
    (∀ ext, d.extGuess = some ext → ext ∉ EXTENSIONS →
      Asset.create d r now =
        (AssetFields.unset, none,
         ["Error when creating image: Extension " ++ ext ++ " is not valid."])) := by
  constructor
  · intro p resp db' hp h
    cases hcb : Asset.createBody d r now with
    | error e =>
      exfalso
      have hcr := create_of_createBody_error d r now e hcb
      simp only [upload_playlist_image, hp, hcr, AssetFields.unset] at h
      exact Except.noConfusion h
    | ok out =>
      obtain ⟨ext, hg, hmem, hdec, rfl⟩ := createBody_ok d r now out hcb
      have hcr : Asset.create d r now =
          (⟨some S3_BASE_URL, some (mkSalt r), some ext,
            some d.width, some d.height, some now⟩,
           (Asset.upload d (mkSalt r ++ "." ++ ext)).1,
           (Asset.upload d (mkSalt r ++ "." ++ ext)).2) := by
        simp [Asset.create, hcb]
      simp only [upload_playlist_image, hp, hcr] at h
      injection h with h'
      injection h' with hr hd2
      subst hr
      subst hd2
      refine ⟨⟨freshId (db.assets.map (fun a => a.id)), S3_BASE_URL, mkSalt r, ext,
               d.width, d.height, now⟩, rfl, mkSalt_length r, mkSalt_chars r, hmem, rfl, rfl,
              ⟨freshId (db.images.map (fun i => i.id)),
               S3_BASE_URL ++ "/" ++ mkSalt r ++ "." ++ ext⟩, ?_, rfl⟩
      exact List.mem_append_right _ (List.mem_singleton_self _)
  · intro ext hg hx
    exact create_of_createBody_error d r now _ (createBody_bad_ext d r now ext hg hx)

/-- Witness for C8 at dbA3: the good upload to playlist 1 appends asset 1 and
creates image 1 with the matching link; the bmp upload is rejected with all
fields unset. -/
theorem C8_asset_well_formed_witness :
    (∃ a : AssetRow, dbA4.assets = dbA3.assets ++ [a] ∧
      a.salt.length = 16 ∧ (∀ c ∈ a.salt.data, c ∈ ALPHABET) ∧
      a.extension ∈ EXTENSIONS ∧ a.base_url = S3_BASE_URL ∧
      a.url = S3_BASE_URL ++ "/" ++ a.salt ++ "." ++ a.extension ∧
      ∃ i : ImgRow, i ∈ dbA4.images ∧ i.link = a.url) ∧
    Asset.create badImg rA 0 =
      (AssetFields.unset, none,
       ["Error when creating image: Extension " ++ "bmp" ++ " is not valid."]) :=
  ⟨(C8_asset_well_formed dbA3 1 goodImg rA 0).1 ⟨1, "P", 1, none⟩
      (success_response
        (ImgRow.serialize dbA4
          ⟨1, "https://bucket.s3.us-east-1.amazonaws.com/AAAAAAAAAAAAAAAA.png"⟩) 201)
      dbA4 (by decide) rfl,
   (C8_asset_well_formed DB.empty 1 badImg rA 0).2 "bmp" rfl (by decide)⟩

/-- An upload whose decode succeeds but whose S3 transfer fails. -/
def uploadFailImg : ImageData := ⟨some "png", true, 2, 3, false⟩

/-- C9 counterexample: for an upload whose S3 transfer fails, the failure is
caught and logged — but every Asset field ends up fully populated, not "only
partially populated" as the claim states. -/
theorem C9_cx_upload_failure_fields_fully_populated :
    Asset.create uploadFailImg rA 0 =
      (⟨some S3_BASE_URL, some "AAAAAAAAAAAAAAAA", some "png", some 2, some 3, some 0⟩,
       none, ["Error when uploading image"]) := by decide

/-- C9 (amended): the constructor always returns normally — both pipeline
outcomes are handled.  A failure of the try-block (failed extension guess,
unsupported extension, failed decode) is caught and logged with every field
left unset; an upload failure is caught and logged inside upload, leaving the
fields fully populated and no object stored remotely. -/
theorem C9_create_catches_all_failures (d : ImageData) (r : Nat → Fin 36) (now : Nat) :
    (∀ e, Asset.createBody d r now = .error e →
      Asset.create d r now = (AssetFields.unset, none, ["Error when creating image: " ++ e])) ∧
    (∀ out, Asset.createBody d r now = .ok out → Asset.create d r now = out) ∧
    (d.uploadOk = false → ∀ f up lg, Asset.createBody d r now = .ok (f, up, lg) →
      up = none ∧ lg = ["Error when uploading image"] ∧
      f.base_url.isSome ∧ f.salt.isSome ∧ f.extension.isSome ∧
      f.width.isSome ∧ f.height.isSome ∧ f.created_at.isSome) := by
  refine ⟨?_, ?_, ?_⟩
  · intro e he
    simp [Asset.create, he]
  · intro out hout
    simp [Asset.create, hout]
  · intro hup f up lg h
    obtain ⟨ext, hg, hmem, hdec, heq⟩ := createBody_ok d r now (f, up, lg) h
    have hu : Asset.upload d (mkSalt r ++ "." ++ ext) = (none, ["Error when uploading image"]) := by
      simp [Asset.upload, hup]
    rw [hu] at heq
    injection heq with h1 h2
    injection h2 with h3 h4
    subst h1
    subst h3
    subst h4
    simp

/-- Witness for the amended C9: the bmp payload makes the try-block raise, and
create catches it, logs it, and returns with all fields unset. -/
theorem C9_create_catches_all_failures_witness :
    Asset.create badImg rA 0 =
      (AssetFields.unset, none, ["Error when creating image: " ++ "Extension bmp is not valid."]) :=
  (C9_create_catches_all_failures badImg rA 0).1 "Extension bmp is not valid." rfl

/-- A response carrying the JSON failure envelope. -/
def isEnvelope (resp : Resp) : Prop := ∃ m, resp.body = jobj [jkey "error" (jstr m)]

/-- create_new_user only answers envelopes or 2xx. -/
theorem create_user_envelope (db : DB) (u : Option String) :
    isEnvelope (create_new_user db u).1 ∨ (create_new_user db u).1.code < 400 := by
  cases u with
  | none => exact .inl ⟨_, rfl⟩
  | some name => exact .inr (by norm_num [create_new_user, success_response])

/-- add_song_to_database only answers envelopes or 2xx. -/
theorem add_song_envelope (db : DB) (t a : Option String) (b : Option Int) (l : Option String) :
    isEnvelope (add_song_to_database db t a b l).1 ∨
      (add_song_to_database db t a b l).1.code < 400 := by
  cases t <;> cases a <;> cases b <;> cases l <;>
    simp only [add_song_to_database] <;>
    try exact .inl ⟨_, rfl⟩
  rename_i t a b l
  by_cases hdup : ∃ s ∈ db.songs, s.title = t ∧ s.artist = a ∧ s.bpm = b ∧ s.link = l
  · rw [if_pos hdup]
    exact .inl ⟨_, rfl⟩
  · rw [if_neg hdup]
    exact .inr (by norm_num [success_response])

/-- get_songs_bpm only answers envelopes or 2xx. -/
theorem search_envelope (db : DB) (lo hi : Option Int) :
    isEnvelope (get_songs_bpm db lo hi).1 ∨ (get_songs_bpm db lo hi).1.code < 400 := by
  cases lo <;> cases hi <;> simp only [get_songs_bpm] <;> try exact .inl ⟨_, rfl⟩
  split
  · exact .inl ⟨_, rfl⟩
  · exact .inr (by norm_num [success_response])

/-- get_user_playlists only answers envelopes or 2xx. -/
theorem user_playlists_envelope (db : DB) (uid : Nat) :
    isEnvelope (get_user_playlists db uid).1 ∨ (get_user_playlists db uid).1.code < 400 := by
  unfold get_user_playlists
  cases db.users.find? (fun u => u.id == uid) with
  | none => exact .inl ⟨_, rfl⟩
  | some u => exact .inr (by norm_num [success_response])

/-- create_new_playlist only answers envelopes or 2xx. -/
theorem create_playlist_envelope (db : DB) (uid : Nat) (name : Option String) :
    isEnvelope (create_new_playlist db uid name).1 ∨
      (create_new_playlist db uid name).1.code < 400 := by
  unfold create_new_playlist
  cases db.users.find? (fun u => u.id == uid) with
  | none => exact .inl ⟨_, rfl⟩
  | some u =>
    cases name with
    | none => exact .inl ⟨_, rfl⟩
    | some nm => exact .inr (by norm_num [success_response])

/-- get_specific_playlist only answers envelopes or 2xx. -/
theorem get_playlist_envelope (db : DB) (pid : Nat) :
    isEnvelope (get_specific_playlist db pid).1 ∨
      (get_specific_playlist db pid).1.code < 400 := by
  unfold get_specific_playlist
  cases db.playlists.find? (fun p => p.id == pid) with
  | none => exact .inl ⟨_, rfl⟩
  | some p => exact .inr (by norm_num [success_response])

/-- delete_playlist only answers envelopes or 2xx. -/
theorem delete_playlist_envelope (db : DB) (pid : Nat) :
    isEnvelope (delete_playlist db pid).1 ∨ (delete_playlist db pid).1.code < 400 := by
  unfold delete_playlist
  cases db.playlists.find? (fun p => p.id == pid) with
  | none => exact .inl ⟨_, rfl⟩
  | some p => exact .inr (by norm_num [success_response])

/-- add_song_to_playlist only answers envelopes or 2xx. -/
theorem add_playlist_song_envelope (db : DB) (pid sid : Nat) :
    isEnvelope (add_song_to_playlist db pid sid).1 ∨
      (add_song_to_playlist db pid sid).1.code < 400 := by
  unfold add_song_to_playlist
  cases db.playlists.find? (fun p => p.id == pid) with
  | none => exact .inl ⟨_, rfl⟩
  | some p =>
    cases db.songs.find? (fun s => s.id == sid) with
    | none => exact .inl ⟨_, rfl⟩
    | some s => exact .inr (by norm_num [success_response])

/-- remove_song_from_playlist only answers envelopes or 2xx. -/
theorem remove_playlist_song_envelope (db : DB) (pid sid : Nat) :
    isEnvelope (remove_song_from_playlist db pid sid).1 ∨
      (remove_song_from_playlist db pid sid).1.code < 400 := by
  rcases hf : db.playlists.find? (fun p => p.id == pid) with _ | p <;>
    simp only [remove_song_from_playlist, hf]
  · exact .inl ⟨_, rfl⟩
  · rcases hs : db.songs.find? (fun s => s.id == sid) with _ | s <;> simp only [hs]
    · exact .inl ⟨_, rfl⟩
    · by_cases hm : (pid, sid) ∈ db.assoc
      · rw [if_pos hm]
        exact .inr (by norm_num [success_response])
      · rw [if_neg hm]
        exact .inl ⟨_, rfl⟩

/-- get_song_from_playlist only answers envelopes or 2xx. -/
theorem get_song_envelope (db : DB) (sid : Nat) :
    isEnvelope (get_song_from_playlist db sid).1 ∨
      (get_song_from_playlist db sid).1.code < 400 := by
  unfold get_song_from_playlist
  cases db.songs.find? (fun s => s.id == sid) with
  | none => exact .inl ⟨_, rfl⟩
  | some s => exact .inr (by norm_num [success_response])

/-- Every response upload_playlist_image manages to return (it can also
abort) is an envelope or 2xx. -/
theorem upload_envelope (db : DB) (pid : Nat) (d : Option ImageData)
    (r : Nat → Fin 36) (now : Nat) (resp : Resp) (db' : DB)
    (h : upload_playlist_image db pid d r now = .ok (resp, db')) :
    isEnvelope resp ∨ resp.code < 400 := by
  rcases hf : db.playlists.find? (fun p => p.id == pid) with _ | p
  · simp only [upload_playlist_image, hf] at h
    injection h with h'
    injection h' with hr hd
    subst hr
    exact .inl ⟨_, rfl⟩
  · rcases d with _ | dd
    · simp only [upload_playlist_image, hf] at h
      injection h with h'
      injection h' with hr hd
      subst hr
      exact .inl ⟨_, rfl⟩
    · cases hcb : Asset.createBody dd r now with
      | error e =>
        have hcr := create_of_createBody_error dd r now e hcb
        simp only [upload_playlist_image, hf, hcr, AssetFields.unset] at h
        exact Except.noConfusion h
      | ok out =>
        obtain ⟨ext, hg, hmem, hdec, rfl⟩ := createBody_ok dd r now out hcb
        have hcr : Asset.create dd r now =
            (⟨some S3_BASE_URL, some (mkSalt r), some ext,
              some dd.width, some dd.height, some now⟩,
             (Asset.upload dd (mkSalt r ++ "." ++ ext)).1,
             (Asset.upload dd (mkSalt r ++ "." ++ ext)).2) := by
          simp [Asset.create, hcb]
        simp only [upload_playlist_image, hf, hcr] at h
        injection h with h'
        injection h' with hr hd
        subst hr
        exact .inr (by norm_num [success_response])

/-- Every response remove_playlist_image manages to return (it can also
abort) is an envelope or 2xx. -/
theorem remove_image_envelope (db : DB) (pid : Nat) (resp : Resp) (db' : DB)
    (h : remove_playlist_image db pid = .ok (resp, db')) :
    isEnvelope resp ∨ resp.code < 400 := by
  rcases hf : db.playlists.find? (fun p => p.id == pid) with _ | p
  · simp only [remove_playlist_image, hf] at h
    injection h with h'
    injection h' with hr hd
    subst hr
    exact .inl ⟨_, rfl⟩
  · rcases hi : p.image_id.bind (fun iid => db.images.find? (fun i => i.id == iid)) with _ | img
    · simp only [remove_playlist_image, hf, hi] at h
      injection h with h'
      injection h' with hr hd
      subst hr
      exact .inl ⟨_, rfl⟩
    · rcases ha : p.image_id.bind (fun iid => db.assets.find? (fun a => a.id == iid)) with _ | a
      · simp only [remove_playlist_image, hf, hi, ha] at h
        exact Except.noConfusion h
      · simp only [remove_playlist_image, hf, hi, ha] at h
        injection h with h'
        injection h' with hr hd
        subst hr
        exact .inr (by norm_num [success_response])

/-- The first component of a pair equation. -/
theorem pair_eq_fst {p : Resp × DB} {a : Resp} {b : DB} (h : p = (a, b)) : a = p.1 := by
  rw [h]

/-- C7 (amended): every failure response a core handler actually returns is
the JSON error envelope, and successful responses carry 2xx codes — but not
every error is converted into a response: a handler can abort with an
unhandled fault (C7_cx_upload_fault exhibits one in normal operation, and
remove_playlist_image aborts when the Asset row with id = playlist.image_id
is missing). -/
theorem C7_failures_are_enveloped (req : Req) (db : DB) (resp : Resp) (db' : DB)
    (h : handle req db = .ok (resp, db')) (hc : 400 ≤ resp.code) :
    ∃ m, resp.body = jobj [jkey "error" (jstr m)] := by
  have henv : isEnvelope resp ∨ resp.code < 400 := by
    cases req with
    | createUser u =>
      simp only [handle] at h
      injection h with h'
      rw [pair_eq_fst h']
      exact create_user_envelope db u
    | addSong t a b l =>
      simp only [handle] at h
      injection h with h'
      rw [pair_eq_fst h']
      exact add_song_envelope db t a b l
    | searchSongs lo hi =>
      simp only [handle] at h
      injection h with h'
      rw [pair_eq_fst h']
      exact search_envelope db lo hi
    | userPlaylists uid =>
      simp only [handle] at h
      injection h with h'
      rw [pair_eq_fst h']
      exact user_playlists_envelope db uid
    | createPlaylist uid name =>
      simp only [handle] at h
      injection h with h'
      rw [pair_eq_fst h']
      exact create_playlist_envelope db uid name
    | getPlaylist pid =>
      simp only [handle] at h
      injection h with h'
      rw [pair_eq_fst h']
      exact get_playlist_envelope db pid
    | deletePlaylist pid =>
      simp only [handle] at h
      injection h with h'
      rw [pair_eq_fst h']
      exact delete_playlist_envelope db pid
    | addPlaylistSong pid sid =>
      simp only [handle] at h
      injection h with h'
      rw [pair_eq_fst h']
      exact add_playlist_song_envelope db pid sid
    | removePlaylistSong pid sid =>
      simp only [handle] at h
      injection h with h'
      rw [pair_eq_fst h']
      exact remove_playlist_song_envelope db pid sid
    | getSong sid =>
      simp only [handle] at h
      injection h with h'
      rw [pair_eq_fst h']
      exact get_song_envelope db sid
    | uploadImage pid d r now =>
      simp only [handle] at h
      exact upload_envelope db pid d r now resp db' h
    | removeImage pid =>
      simp only [handle] at h
      exact remove_image_envelope db pid resp db' h
  rcases henv with he | hlt
  · exact he
  · omega

/-- Witness for the amended C7: GET /songs/1/ on the empty database answers
404 with the envelope body. -/
theorem C7_failures_are_enveloped_witness :
    ∃ m, (failure_response "Song not found" 404).body = jobj [jkey "error" (jstr m)] :=
  C7_failures_are_enveloped (.getSong 1) DB.empty
    (failure_response "Song not found" 404) DB.empty rfl (by decide)

/-- C7 counterexample: in normal operation (user alice, playlist P, then
POST /playlists/1/images/ with a well-formed body whose payload has an
unsupported extension) the handler aborts with an unhandled IntegrityError —
Asset.create swallowed the pipeline failure and the commit hit the NOT NULL
columns — instead of converting the error into a JSON failure response. -/
theorem C7_cx_upload_fault :
    handle (.uploadImage 1 (some badImg) rA 0) dbA2 = .error .integrityError := rfl
